import Mathlib

/-
  Shallow embedding of the echolist backend core (authorization resolver,
  connection lifecycle, content pipeline) and proofs about it.

  Python sources embedded here:
    app/models/models.py                (data model)
    app/api/sections/repository.py     (connection / access-rule lookups, updates)
    app/api/sections/service.py        (_has_section_access, get_section)
    app/api/items/service.py           (create_item edit check, update_item, delete_item)
    app/api/items/repository.py        (update_item field loop, delete_item)
    app/api/connections/service.py     (update_connection guards)
    app/api/connections/repository.py  (update_connection field loop)
    app/api/ai/service.py              (vectorize_and_store, classify_text_with_llm)
    app/api/ai/router.py               (query_text route)
    app/api/home/router.py             (search_items)

  External capabilities (OpenAI embeddings, Pinecone, the LLM, JSON decoding,
  the text splitter, the md5 hash) are modelled as function parameters or as
  already-decoded values, exactly at the call boundary where the Python code
  invokes the third-party library.
-/

namespace EchoList

/-- models.py ConnectionType enum: Family, Friend, Colleague. -/
inductive ConnectionType where
  | family
  | friend
  | colleague
deriving DecidableEq

/-- models.py ConnectionStatus enum: Pending, Accepted. -/
inductive ConnectionStatus where
  | pending
  | accepted
deriving DecidableEq

/-- models.py Priority enum: Urgent, High, Medium, Low. -/
inductive Priority where
  | urgent
  | high
  | medium
  | low
deriving DecidableEq

/-- The error taxonomy surfaced by the services: FastAPI HTTPException status
codes 404, 403, 400, 500 respectively. -/
inductive ApiError where
  | notFound
  | forbidden
  | badRequest
  | internalError
deriving DecidableEq

/-- Outcome equality is decidable whenever both components are, letting the
closed scenarios below be settled by evaluation. -/
instance {ε α : Type} [DecidableEq ε] [DecidableEq α] : DecidableEq (Except ε α) :=
  fun a b =>
    match a, b with
    | .ok x, .ok y =>
      if h : x = y then .isTrue (by rw [h])
      else .isFalse fun hc => h (Except.ok.inj hc)
    | .error x, .error y =>
      if h : x = y then .isTrue (by rw [h])
      else .isFalse fun hc => h (Except.error.inj hc)
    | .ok _, .error _ => .isFalse fun hc => Except.noConfusion hc
    | .error _, .ok _ => .isFalse fun hc => Except.noConfusion hc

/-- The two capabilities a SectionAccess rule can grant; the string
access_type argument of _has_section_access takes "view" or "edit". -/
inductive Capability where
  | view
  | edit
deriving DecidableEq

/-- Embeddings are opaque vectors; the float contents are produced by an
external provider, so we model the payload as a rational vector and keep
every similarity computation abstract (a function parameter). -/
abbrev Embedding := List ℚ

/-- models.py Connection row (relationship columns omitted; created_at is an
abstract tick). -/
structure Connection where
  connection_id : Nat
  user_a_id : Nat
  user_b_id : Nat
  connection_type : ConnectionType
  status : ConnectionStatus
  created_at : Nat
deriving DecidableEq

/-- models.py SectionAccess row. -/
structure SectionAccess where
  section_access_id : Nat
  section_id : Nat
  allowed_connection_type : ConnectionType
  can_view : Bool
  can_edit : Bool
deriving DecidableEq

/-- models.py Section row. -/
structure Section where
  section_id : Nat
  owner_user_id : Nat
  section_name : String
  display_color : String
  is_template : Bool
  template_description : Option String
  created_at : Nat
deriving DecidableEq

/-- models.py Item row (datetimes are abstract ticks, the embedding blob is
an optional vector). -/
structure Item where
  item_id : Nat
  section_id : Nat
  creator_user_id : Nat
  content_text : String
  timestamp : Nat
  is_task : Bool
  due_date : Option Nat
  is_completed : Bool
  priority : Priority
  vector_embedding : Option Embedding
  original_audio_url : Option String
  last_modified_by_user_id : Option Nat
  last_modified_at : Option Nat
deriving DecidableEq

/-- The relational store: the four tables the authorization and retrieval
code reads.  Lists model SQL result ordering; `.first()` is `.head?`. -/
structure DB where
  connections : List Connection
  accessRules : List SectionAccess
  sections : List Section
  items : List Item
deriving DecidableEq

/-- sections/repository.py get_connections_between_users: rows matching
either ordering of the pair. -/
def get_connections_between_users (conns : List Connection)
    (user_a_id user_b_id : Nat) : List Connection :=
  conns.filter fun c =>
    (c.user_a_id == user_a_id && c.user_b_id == user_b_id) ||
    (c.user_a_id == user_b_id && c.user_b_id == user_a_id)

/-- sections/repository.py get_section_access_rule: first rule matching
(section_id, connection_type). -/
def get_section_access_rule (rules : List SectionAccess)
    (section_id : Nat) (ct : ConnectionType) : Option SectionAccess :=
  (rules.filter fun r =>
    r.section_id == section_id && r.allowed_connection_type == ct).head?

/-- sections/repository.py get_section_by_id. -/
def get_section_by_id (sections : List Section) (section_id : Nat) : Option Section :=
  (sections.filter fun s => s.section_id == section_id).head?

/-- items/repository.py get_item_by_id. -/
def get_item_by_id (items : List Item) (item_id : Nat) : Option Item :=
  (items.filter fun it => it.item_id == item_id).head?

/-- The flag of a rule selected by the requested capability, as read inside
the loop of _has_section_access. -/
def SectionAccess.flagFor (r : SectionAccess) : Capability → Bool
  | .view => r.can_view
  | .edit => r.can_edit

/-- sections/service.py _has_section_access: loop over every connection
between the two users; return True on the first one whose (section,
connection_type) rule grants the requested capability, else False. -/
def has_section_access (db : DB) (section_id owner_user_id current_user_id : Nat)
    (access_type : Capability) : Bool :=
  (get_connections_between_users db.connections owner_user_id current_user_id).any
    fun conn =>
      match get_section_access_rule db.accessRules section_id conn.connection_type with
      | some rule => rule.flagFor access_type
      | none => false

/-- The owner-or-connection guard shared by get_section (view),
update_section (edit) and the item services: the owner passes
unconditionally, anyone else passes iff _has_section_access. -/
def resolve (db : DB) (owner_user_id actor_user_id section_id : Nat)
    (cap : Capability) : Bool :=
  if owner_user_id == actor_user_id then true
  else has_section_access db section_id owner_user_id actor_user_id cap

/-- sections/service.py get_section: 404 when the id does not resolve, 403
when a non-owner lacks view access, otherwise the section. -/
def get_section (db : DB) (section_id current_user_id : Nat) :
    Except ApiError Section :=
  match get_section_by_id db.sections section_id with
  | none => .error .notFound
  | some s =>
    if s.owner_user_id != current_user_id &&
       !(has_section_access db section_id s.owner_user_id current_user_id .view) then
      .error .forbidden
    else
      .ok s

/-- items/service.py create_item, lines 32-49: the edit-access loop a
non-owner must pass to create an item in the section. -/
def create_item_edit_access (db : DB) (section_id owner_user_id current_user_id : Nat) :
    Bool :=
  (get_connections_between_users db.connections owner_user_id current_user_id).any
    fun conn =>
      match get_section_access_rule db.accessRules section_id conn.connection_type with
      | some rule => rule.can_edit
      | none => false

/-- A copy of the store in which every connection's status field has been
rewritten by f and nothing else changed: the vehicle for stating that access
decisions never read Connection.status. -/
def restatus (f : Connection → ConnectionStatus) (db : DB) : DB :=
  { db with connections := db.connections.map fun c => { c with status := f c } }

/-- schemas.py ConnectionUpdate: both fields optional; an absent JSON key and
an explicit null both arrive as None, hence one Option. -/
structure ConnectionUpdate where
  connection_type : Option ConnectionType
  status : Option ConnectionStatus
deriving DecidableEq

/-- schemas.py SectionUpdate: all three fields optional. -/
structure SectionUpdate where
  section_name : Option String
  display_color : Option String
  template_description : Option String
deriving DecidableEq

/-- schemas.py ItemUpdate: all five fields optional. -/
structure ItemUpdate where
  content_text : Option String
  is_task : Option Bool
  due_date : Option Nat
  is_completed : Option Bool
  priority : Option Priority
deriving DecidableEq

/-- connections/repository.py update_connection field loop: for each key of
the update dict, set the attribute only when the supplied value is not None.
The service passes at most the connection_type and status keys, and only
when they are not None, so the loop reduces to these two conditional
assignments. -/
def repo_update_connection (c : Connection) (u : ConnectionUpdate) : Connection :=
  { c with
    connection_type := u.connection_type.getD c.connection_type,
    status := u.status.getD c.status }

/-- sections/repository.py update_section field loop over the three keys the
service supplies (section_name, display_color, template_description),
skipping None values. -/
def repo_update_section (s : Section) (u : SectionUpdate) : Section :=
  { s with
    section_name := u.section_name.getD s.section_name,
    display_color := u.display_color.getD s.display_color,
    template_description :=
      match u.template_description with
      | some v => some v
      | none => s.template_description }

/-- connections/repository.py get_connection_by_id. -/
def get_connection_by_id (conns : List Connection) (connection_id : Nat) :
    Option Connection :=
  (conns.filter fun c => c.connection_id == connection_id).head?

/-- connections/service.py _user_has_connection_access: the user is one of
the two endpoints. -/
def user_has_connection_access (c : Connection) (user_id : Nat) : Bool :=
  c.user_a_id == user_id || c.user_b_id == user_id

/-- connections/service.py update_connection: 404 on missing id, 403 for a
non-endpoint, 403 when a non-initiator supplies connection_type, 403 when
anyone but user_b supplies status Accepted; otherwise apply the update.  The
pair carries the outcome and the post-state of the connections table (left
untouched on every error, since the service raises before the repository
write). -/
def update_connection (conns : List Connection) (connection_id : Nat)
    (upd : ConnectionUpdate) (current_user_id : Nat) :
    Except ApiError Connection × List Connection :=
  match get_connection_by_id conns connection_id with
  | none => (.error .notFound, conns)
  | some c =>
    if !(user_has_connection_access c current_user_id) then
      (.error .forbidden, conns)
    else if upd.connection_type.isSome && c.user_a_id != current_user_id then
      (.error .forbidden, conns)
    else if upd.status == some .accepted && c.user_b_id != current_user_id then
      (.error .forbidden, conns)
    else
      let c' := repo_update_connection c upd
      (.ok c', conns.map fun x => if x.connection_id == connection_id then c' else x)

/-- items/service.py update_item lines 266-280 plus the repository field
loop: optional fields keep their stored value when None, the modification
metadata is always stamped, and the embedding is recomputed exactly when
content_text was supplied. -/
def apply_item_update (it : Item) (upd : ItemUpdate) (current_user_id now : Nat)
    (new_embedding : Option Embedding) : Item :=
  { it with
    content_text := upd.content_text.getD it.content_text,
    is_task := upd.is_task.getD it.is_task,
    due_date :=
      match upd.due_date with
      | some d => some d
      | none => it.due_date,
    is_completed := upd.is_completed.getD it.is_completed,
    priority := upd.priority.getD it.priority,
    last_modified_by_user_id := some current_user_id,
    last_modified_at := some now,
    vector_embedding :=
      match new_embedding with
      | some e => some e
      | none => it.vector_embedding }

/-- items/service.py update_item: 404 on missing item; the edit gate is
skipped when the requester is the section owner or the item creator, and a
non-owner non-creator must pass the connection edit loop; then the item is
updated in place.  A vanished parent section would crash the attribute read
in Python, surfaced by FastAPI as a 500. -/
def update_item (db : DB) (embed : String → Embedding) (item_id : Nat)
    (upd : ItemUpdate) (current_user_id now : Nat) :
    Except ApiError Item × DB :=
  match get_item_by_id db.items item_id with
  | none => (.error .notFound, db)
  | some it =>
    match get_section_by_id db.sections it.section_id with
    | none => (.error .internalError, db)
    | some s =>
      if s.owner_user_id != current_user_id &&
         it.creator_user_id != current_user_id &&
         !(create_item_edit_access db it.section_id s.owner_user_id current_user_id) then
        (.error .forbidden, db)
      else
        let it' := apply_item_update it upd current_user_id now
          (upd.content_text.map embed)
        (.ok it',
         { db with items := db.items.map fun x =>
             if x.item_id == item_id then it' else x })

/-- items/service.py delete_item: 404 on missing item, 403 unless the
requester is the section owner or the item creator (no connection fallback
exists on this path), then the row is removed. -/
def delete_item (db : DB) (item_id current_user_id : Nat) :
    Except ApiError Unit × DB :=
  match get_item_by_id db.items item_id with
  | none => (.error .notFound, db)
  | some it =>
    match get_section_by_id db.sections it.section_id with
    | none => (.error .internalError, db)
    | some s =>
      if s.owner_user_id != current_user_id &&
         it.creator_user_id != current_user_id then
        (.error .forbidden, db)
      else
        (.ok (),
         { db with items := db.items.filter fun x => !(x.item_id == item_id) })

/-- ai/router.py: the per-section dict handed to classification
(section_id, section_name, template_description). -/
structure SectionData where
  section_id : Nat
  section_name : String
  template_description : Option String
deriving DecidableEq

/-- The two-field JSON object the LLM is asked to return.  json.loads
followed by dict.get makes each field optional: a missing key becomes None,
which is why both fields are Options. -/
structure LLMOutput where
  predicted_section_name : Option String
  section_id : Option Int
deriving DecidableEq

/-- ai/service.py classify_text_with_llm return dict. -/
structure ClassificationResult where
  predicted_section_name : Option String
  confidence_score : ℚ
  section_id : Option Int
deriving DecidableEq

/-- ai/service.py classify_text_with_llm, parsing stage (lines 144-163): the
LLM call and json.loads are external, so the input is the already-decoded
response, none meaning a JSONDecodeError (raised as a 500).  Confidence is
1.0 unless the predicted name is the string None, and section_id is passed
through from the response without validation. -/
def classify_text_with_llm (llm_response : Option LLMOutput) :
    Except ApiError ClassificationResult :=
  match llm_response with
  | none => .error .internalError
  | some o =>
    .ok { predicted_section_name := o.predicted_section_name,
          confidence_score := if o.predicted_section_name != some "None" then 1 else 0,
          section_id := o.section_id }

/-- One Pinecone record written by vectorize_and_store: the chunk text plus
the caller metadata merged with the chunk_index and original_hash_id keys. -/
structure VectorEntry (M : Type) where
  page_content : String
  metadata : M
  chunk_index : Nat
  original_hash_id : String
deriving DecidableEq

/-- ai/service.py vectorize_and_store response (the human-readable message
field is omitted). -/
structure VectorizeResult where
  chunks_count : Nat
  hash_id : String
  classification : Option ClassificationResult
deriving DecidableEq

/-- The Document list built in vectorize_and_store lines 63-73: one entry
per chunk, indexed in order, all sharing the hash of the whole text. -/
def mk_chunk_docs {M : Type} (split : String → List String)
    (hashf : String → String) (text : String) (metadata : M) :
    List (VectorEntry M) :=
  (split text).enum.map fun p =>
    { page_content := p.2,
      metadata := metadata,
      chunk_index := p.1,
      original_hash_id := hashf text }

/-- ai/service.py vectorize_and_store: hash the whole text, split it, append
every chunk to the index, then classify when a sections catalog was
supplied.  The text splitter, the md5 hash and the classification call are
external capabilities passed as functions; the pair carries the outcome and
the post-state of the vector index.  Note the order of effects: the chunks
are added before classification runs, and a classification error propagates
(the except clauses re-raise), leaving the chunks stored but the call
failed.  No lookup of original_hash_id ever happens. -/
def vectorize_and_store {M : Type} (split : String → List String)
    (hashf : String → String)
    (classify : String → List SectionData → Except ApiError ClassificationResult)
    (text : String) (metadata : M) (sections_data : List SectionData)
    (store : List (VectorEntry M)) :
    Except ApiError VectorizeResult × List (VectorEntry M) :=
  let hash_id := hashf text
  let docs := mk_chunk_docs split hashf text metadata
  let store' := store ++ docs
  if sections_data.isEmpty then
    (.ok { chunks_count := docs.length, hash_id := hash_id, classification := none },
     store')
  else
    match classify text sections_data with
    | .ok c =>
      (.ok { chunks_count := docs.length, hash_id := hash_id, classification := some c },
       store')
    | .error e => (.error e, store')

/-- schemas.py QueryResult (score is always set by the service). -/
structure QueryResult (M : Type) where
  text : String
  metadata : M
  score : ℚ
deriving DecidableEq

/-- schemas.py QueryResponse. -/
structure QueryResponse (M : Type) where
  results : List (QueryResult M)
  query : String
  summary : Option String
deriving DecidableEq

/-- ai/router.py query_text route (lines 59-90): run the similarity search,
then summarize the retrieved texts and attach the summary.  The whole body
sits in one try whose except clause converts any exception, including the
HTTPException a failed summarization raises, into a 500, so a summarization
failure fails the entire route. -/
def query_text_route {M : Type}
    (similarity_query : String → Nat → Except ApiError (List (QueryResult M)))
    (summarize : List String → Except ApiError String)
    (q : String) (k : Nat) : Except ApiError (QueryResponse M) :=
  match similarity_query q k with
  | .error _ => .error .internalError
  | .ok results =>
    match summarize (results.map fun r => r.text) with
    | .error _ => .error .internalError
    | .ok s => .ok { results := results, query := q, summary := some s }

/-- home/router.py: ids of the sections owned by the user. -/
def owned_section_ids (db : DB) (user_id : Nat) : List Nat :=
  (db.sections.filter fun s => s.owner_user_id == user_id).map fun s => s.section_id

/-- home/router.py: every connection in which the user participates. -/
def user_connections (db : DB) (user_id : Nat) : List Connection :=
  db.connections.filter fun c => c.user_a_id == user_id || c.user_b_id == user_id

/-- home/router.py: the access-rule probe of the search loop — a rule for
(section, connection_type) with can_view set. -/
def view_rule_exists (db : DB) (section_id : Nat) (ct : ConnectionType) : Bool :=
  ((db.accessRules.filter fun r =>
      r.section_id == section_id &&
      r.allowed_connection_type == ct &&
      r.can_view).head?).isSome

/-- home/router.py search_items lines 157-181: for every connection the user
holds, the other endpoint's sections whose rule for that connection type
grants can_view. -/
def connection_accessible_section_ids (db : DB) (user_id : Nat) : List Nat :=
  (user_connections db user_id).flatMap fun conn =>
    let other_user_id :=
      if conn.user_a_id == user_id then conn.user_b_id else conn.user_a_id
    (((db.sections.filter fun s => s.owner_user_id == other_user_id).filter
        fun s => view_rule_exists db s.section_id conn.connection_type).map
      fun s => s.section_id)

/-- home/router.py: owned plus connection-accessible section ids. -/
def all_accessible_section_ids (db : DB) (user_id : Nat) : List Nat :=
  owned_section_ids db user_id ++ connection_accessible_section_ids db user_id

/-- Descending-score order on scored items, the key of the final sort. -/
def byScoreDesc {M : Type} (a b : M × ℚ) : Prop := b.2 ≤ a.2

instance {M : Type} : DecidableRel (byScoreDesc (M := M)) :=
  fun a b => inferInstanceAs (Decidable (b.2 ≤ a.2))

instance {M : Type} : IsTotal (M × ℚ) byScoreDesc :=
  ⟨fun a b => le_total b.2 a.2⟩

instance {M : Type} : IsTrans (M × ℚ) byScoreDesc :=
  ⟨fun _ _ _ hab hbc => le_trans hbc hab⟩

/-- home/router.py search_items lines 186-193, the items_with_sections
query: items joined with their section and restricted to the accessible
section ids. -/
def search_candidates (db : DB) (user_id : Nat) : List Item :=
  db.items.filter fun it =>
    (all_accessible_section_ids db user_id).contains it.section_id &&
    (db.sections.any fun s => s.section_id == it.section_id)

/-- The fixed relevance threshold 0.5 of home/router.py line 202, written
with the primitive rational constructor so that closed instances evaluate. -/
def similarityThreshold : ℚ := mkRat 1 2

/-- home/router.py search_items lines 196-210, the results list: candidates
carrying an embedding, scored against the query embedding and kept when
strictly above the 0.5 threshold.  The cosine similarity is an external
float computation, abstracted as the sim parameter. -/
def threshold_results (db : DB) (sim : Embedding → Embedding → ℚ)
    (user_id : Nat) (query_embedding : Embedding) : List (Item × ℚ) :=
  (search_candidates db user_id).filterMap fun it =>
    match it.vector_embedding with
    | some e =>
      let similarity := sim query_embedding e
      if similarityThreshold < similarity then some (it, similarity) else none
    | none => none

/-- home/router.py search_items line 213: the results sorted by descending
similarity. -/
def scored_search_results (db : DB) (sim : Embedding → Embedding → ℚ)
    (user_id : Nat) (query_embedding : Embedding) : List (Item × ℚ) :=
  (threshold_results db sim user_id query_embedding).insertionSort byScoreDesc

/-- home/router.py search_items lines 215-216: top 10 of the sorted scored
results, scores dropped. -/
def search_items (db : DB) (sim : Embedding → Embedding → ℚ)
    (user_id : Nat) (query_embedding : Embedding) : List Item :=
  ((scored_search_results db sim user_id query_embedding).take 10).map
    fun p => p.1

/-! Concrete capability instances and stores used to evaluate the
definitions on closed inputs. -/

/-- A one-chunk text splitter (a text shorter than the 500-character chunk
size yields a single chunk). -/
def oneChunkSplit : String → List String := fun t => [t]

/-- A content hash evaluated on concrete inputs; injectivity is all the
dedup key needs, so the identity serves. -/
def identityHash : String → String := fun t => t

/-- A classification capability that always fails with the 500 the service
raises on an unparseable LLM response. -/
def failingClassify : String → List SectionData → Except ApiError ClassificationResult :=
  fun _ _ => .error .internalError

/-- A one-section catalog as the vectorize router builds it. -/
def groceriesCatalog : List SectionData :=
  [{ section_id := 1, section_name := "Groceries", template_description := none }]

/-- A similarity capability: full score on the exact query vector, zero
otherwise. -/
def exactMatchSim : Embedding → Embedding → ℚ :=
  fun x y => if x == y then 1 else 0

/-- A similarity search capability returning one fixed hit. -/
def oneHitSearch : String → Nat → Except ApiError (List (QueryResult Nat)) :=
  fun _ _ => .ok [{ text := "a", metadata := 0, score := 1 }]

/-- A summarization capability that always fails with the 500 the service
raises on an LLM error. -/
def failingSummarize : List String → Except ApiError String :=
  fun _ => .error .internalError

/-- Store: user 1 owns section 10; user 2 holds a pending Friend connection
with 1; section 10 grants Friend view. -/
def accessDB : DB :=
  { connections := [{ connection_id := 1, user_a_id := 1, user_b_id := 2,
                      connection_type := .friend, status := .pending, created_at := 0 }],
    accessRules := [{ section_access_id := 1, section_id := 10,
                      allowed_connection_type := .friend,
                      can_view := true, can_edit := false }],
    sections := [{ section_id := 10, owner_user_id := 1, section_name := "Groceries",
                   display_color := "#808080", is_template := false,
                   template_description := none, created_at := 0 }],
    items := [] }

/-- Store for the search scenario: user 1 owns section 10, can view user 2's
section 20 through an accepted Friend connection, and has no path to user
3's section 30; each section holds one embedded item. -/
def searchDB : DB :=
  { connections := [{ connection_id := 1, user_a_id := 2, user_b_id := 1,
                      connection_type := .friend, status := .accepted, created_at := 0 }],
    accessRules := [{ section_access_id := 1, section_id := 20,
                      allowed_connection_type := .friend,
                      can_view := true, can_edit := false }],
    sections := [{ section_id := 10, owner_user_id := 1, section_name := "Mine",
                   display_color := "#fff", is_template := false,
                   template_description := none, created_at := 0 },
                 { section_id := 20, owner_user_id := 2, section_name := "Theirs",
                   display_color := "#000", is_template := false,
                   template_description := none, created_at := 0 },
                 { section_id := 30, owner_user_id := 3, section_name := "Hidden",
                   display_color := "#000", is_template := false,
                   template_description := none, created_at := 0 }],
    items := [{ item_id := 1, section_id := 10, creator_user_id := 1,
                content_text := "a", timestamp := 0, is_task := false,
                due_date := none, is_completed := false, priority := .medium,
                vector_embedding := some [1], original_audio_url := none,
                last_modified_by_user_id := none, last_modified_at := none },
              { item_id := 2, section_id := 20, creator_user_id := 2,
                content_text := "b", timestamp := 0, is_task := false,
                due_date := none, is_completed := false, priority := .medium,
                vector_embedding := some [1], original_audio_url := none,
                last_modified_by_user_id := none, last_modified_at := none },
              { item_id := 3, section_id := 30, creator_user_id := 3,
                content_text := "c", timestamp := 0, is_task := false,
                due_date := none, is_completed := false, priority := .medium,
                vector_embedding := some [1], original_audio_url := none,
                last_modified_by_user_id := none, last_modified_at := none }] }

/-- The accessible item of searchDB used when exercising the search theorem. -/
def searchHit : Item :=
  { item_id := 1, section_id := 10, creator_user_id := 1,
    content_text := "a", timestamp := 0, is_task := false,
    due_date := none, is_completed := false, priority := .medium,
    vector_embedding := some [1], original_audio_url := none,
    last_modified_by_user_id := none, last_modified_at := none }

/-- Store for the item-creator scenario: user 1 owns section 10, user 2
created item 5 inside it, and no connection or access rule exists at all. -/
def creatorDB : DB :=
  { connections := [],
    accessRules := [],
    sections := [{ section_id := 10, owner_user_id := 1, section_name := "Groceries",
                   display_color := "#808080", is_template := false,
                   template_description := none, created_at := 0 }],
    items := [{ item_id := 5, section_id := 10, creator_user_id := 2,
                content_text := "old", timestamp := 0, is_task := false,
                due_date := none, is_completed := false, priority := .medium,
                vector_embedding := none, original_audio_url := none,
                last_modified_by_user_id := none, last_modified_at := none }] }

/-- First call of the double-vectorization scenario on an empty index. -/
def firstVectorize : Except ApiError VectorizeResult × List (VectorEntry Nat) :=
  vectorize_and_store oneChunkSplit identityHash failingClassify "Buy milk" 0 [] []

/-- Second call of the double-vectorization scenario, on the index the first
call produced. -/
def secondVectorize : Except ApiError VectorizeResult × List (VectorEntry Nat) :=
  vectorize_and_store oneChunkSplit identityHash failingClassify "Buy milk" 0 []
    firstVectorize.2

/-- A vectorization call in which the supplied catalog triggers
classification and classification fails. -/
def vectorizeWithFailingClassify :
    Except ApiError VectorizeResult × List (VectorEntry Nat) :=
  vectorize_and_store oneChunkSplit identityHash failingClassify "Buy milk" 0
    groceriesCatalog []

/-! Theorems. -/

/-- C2: the access check allows the owner unconditionally on any store
(zero connections required); for a non-owner it denies when no connection
exists between actor and owner in either ordering, denies when the
connection's type has no rule for the section, and decides by the rule's
flag for the requested capability when a rule exists; and get_section's
authorization outcome coincides with this resolution for the view
capability. -/
theorem section_access_resolution (db : DB) (owner actor section_id : Nat)
    (cap : Capability) :
    (resolve db owner owner section_id cap = true) ∧
    (actor ≠ owner →
      get_connections_between_users db.connections owner actor = [] →
      resolve db owner actor section_id cap = false) ∧
    (actor ≠ owner →
      (∀ c ∈ get_connections_between_users db.connections owner actor,
        get_section_access_rule db.accessRules section_id c.connection_type = none) →
      resolve db owner actor section_id cap = false) ∧
    (∀ c rule, actor ≠ owner →
      get_connections_between_users db.connections owner actor = [c] →
      get_section_access_rule db.accessRules section_id c.connection_type = some rule →
      resolve db owner actor section_id cap = rule.flagFor cap) ∧
    (∀ s, get_section_by_id db.sections section_id = some s →
      (get_section db section_id actor = .ok s ↔
        resolve db s.owner_user_id actor section_id .view = true)) := by
  refine ⟨?_, ?_, ?_, ?_, ?_⟩
  · simp [resolve]
  · intro hne hconn
    simp [resolve, has_section_access, hconn, Ne.symm hne]
  · intro hne hall
    simp only [resolve, beq_iff_eq, if_neg (Ne.symm hne), has_section_access]
    rw [List.any_eq_false]
    intro c hc
    simp [hall c hc]
  · intro c rule hne hconn hrule
    simp [resolve, has_section_access, hconn, hrule, Ne.symm hne]
  · intro s hs
    simp only [get_section, hs, resolve]
    by_cases ho : s.owner_user_id = actor
    · simp [ho]
    · cases hacc : has_section_access db section_id s.owner_user_id actor .view <;>
        simp [ho, hacc]

/-- Closed instance of the access resolution: in accessDB the pending Friend
connection and the Friend view rule let user 2 view section 10. -/
theorem section_access_resolution_witness :
    resolve accessDB 1 2 10 .view = true := by
  have h := (section_access_resolution accessDB 1 2 10 .view).2.2.2.1
    { connection_id := 1, user_a_id := 1, user_b_id := 2,
      connection_type := .friend, status := .pending, created_at := 0 }
    { section_access_id := 1, section_id := 10,
      allowed_connection_type := .friend, can_view := true, can_edit := false }
    (by decide) (by decide) (by decide)
  exact h.trans (by decide)

/-- Rewriting every connection status commutes with the pair lookup: the
filter never reads the status field. -/
theorem get_connections_restatus (f : Connection → ConnectionStatus)
    (conns : List Connection) (a b : Nat) :
    get_connections_between_users (conns.map fun c => { c with status := f c }) a b
      = (get_connections_between_users conns a b).map fun c => { c with status := f c } := by
  simp only [get_connections_between_users, List.filter_map]
  rfl

/-- C5: the section-access decision for a non-owner is independent of the
Connection status field: rewriting every connection's status (for example
Pending to Accepted or back) changes neither the sections-service access
check, nor the create_item edit check, nor the resolved outcome. -/
theorem access_ignores_connection_status (f : Connection → ConnectionStatus)
    (db : DB) (section_id owner actor : Nat) (cap : Capability) :
    (has_section_access (restatus f db) section_id owner actor cap
      = has_section_access db section_id owner actor cap) ∧
    (create_item_edit_access (restatus f db) section_id owner actor
      = create_item_edit_access db section_id owner actor) ∧
    (resolve (restatus f db) owner actor section_id cap
      = resolve db owner actor section_id cap) := by
  have h1 : has_section_access (restatus f db) section_id owner actor cap
      = has_section_access db section_id owner actor cap := by
    simp only [has_section_access, restatus, get_connections_restatus, List.any_map]
    rfl
  have h2 : create_item_edit_access (restatus f db) section_id owner actor
      = create_item_edit_access db section_id owner actor := by
    simp only [create_item_edit_access, restatus, get_connections_restatus,
      List.any_map]
    rfl
  exact ⟨h1, h2, by simp [resolve, h1]⟩

/-- C8: on a pending connection, a status update to Accepted can succeed
only for user_b; when the initiator user_a (who is not user_b) requests it,
the call fails with 403 and the connections table is unchanged; and user_b
(supplying no type change) succeeds, leaving the connection Accepted. -/
theorem accept_only_by_recipient (conns : List Connection) (connection_id : Nat)
    (upd : ConnectionUpdate) (uid : Nat) (c : Connection)
    (hfind : get_connection_by_id conns connection_id = some c)
    (_hpend : c.status = .pending)
    (hstatus : upd.status = some .accepted) :
    (∀ c', (update_connection conns connection_id upd uid).1 = .ok c' →
      uid = c.user_b_id) ∧
    (uid = c.user_a_id → uid ≠ c.user_b_id →
      (update_connection conns connection_id upd uid).1 = .error .forbidden ∧
      (update_connection conns connection_id upd uid).2 = conns) ∧
    (uid = c.user_b_id → upd.connection_type = none →
      (update_connection conns connection_id upd uid).1
        = .ok (repo_update_connection c upd) ∧
      (repo_update_connection c upd).status = .accepted) := by
  refine ⟨?_, ?_, ?_⟩
  · intro c' h
    simp only [update_connection, hfind] at h
    split at h
    · simp at h
    · split at h
      · simp at h
      · split at h
        · simp at h
        · rename_i hguard
          rw [hstatus] at hguard
          simp at hguard
          exact hguard.symm
  · intro ha hnb
    simp [update_connection, hfind, user_has_connection_access, hstatus, ← ha,
      Ne.symm hnb]
  · intro hb htype
    constructor
    · simp [update_connection, hfind, user_has_connection_access, htype, hstatus,
        ← hb]
    · simp [repo_update_connection, hstatus]

/-- Closed instance of the accept guard: on a pending connection initiated
by user 1 towards user 2, user 1 requesting Accepted gets 403 with the
table unchanged. -/
theorem accept_only_by_recipient_witness :
    (update_connection
        [{ connection_id := 1, user_a_id := 1, user_b_id := 2,
           connection_type := .friend, status := .pending, created_at := 0 }]
        1 { connection_type := none, status := some .accepted } 1).1
      = .error .forbidden := by
  have h := (accept_only_by_recipient
    [{ connection_id := 1, user_a_id := 1, user_b_id := 2,
       connection_type := .friend, status := .pending, created_at := 0 }]
    1 { connection_type := none, status := some .accepted } 1
    { connection_id := 1, user_a_id := 1, user_b_id := 2,
      connection_type := .friend, status := .pending, created_at := 0 }
    (by decide) (by decide) (by decide)).2.1 (by decide) (by decide)
  exact h.1

/-- C9: whenever the requester is the item's creator, update_item and
delete_item succeed outright — the conclusion holds for every store, in
particular one with no Connection and no SectionAccess rule, because the
connection-based edit gate is skipped on the creator path. -/
theorem creator_bypasses_connection_gate (db : DB) (embed : String → Embedding)
    (item_id : Nat) (upd : ItemUpdate) (uid now : Nat) (it : Item) (s : Section)
    (hit : get_item_by_id db.items item_id = some it)
    (hs : get_section_by_id db.sections it.section_id = some s)
    (hcreator : it.creator_user_id = uid) :
    update_item db embed item_id upd uid now
      = (.ok (apply_item_update it upd uid now (upd.content_text.map embed)),
         { db with items := db.items.map fun x =>
             if x.item_id == item_id then
               apply_item_update it upd uid now (upd.content_text.map embed)
             else x }) ∧
    delete_item db item_id uid
      = (.ok (), { db with items := db.items.filter fun x => !(x.item_id == item_id) }) := by
  constructor
  · simp [update_item, hit, hs, hcreator]
  · simp [delete_item, hit, hs, hcreator]

/-- Closed instance of the creator bypass: in creatorDB (empty connections
and rules, owner 1), creator 2 deletes item 5 successfully. -/
theorem creator_bypasses_connection_gate_witness :
    delete_item creatorDB 5 2 = (.ok (), { creatorDB with items := [] }) := by
  have h := (creator_bypasses_connection_gate creatorDB (fun _ => []) 5
    { content_text := none, is_task := none, due_date := none,
      is_completed := none, priority := none } 2 0
    { item_id := 5, section_id := 10, creator_user_id := 2,
      content_text := "old", timestamp := 0, is_task := false,
      due_date := none, is_completed := false, priority := .medium,
      vector_embedding := none, original_audio_url := none,
      last_modified_by_user_id := none, last_modified_at := none }
    { section_id := 10, owner_user_id := 1, section_name := "Groceries",
      display_color := "#808080", is_template := false,
      template_description := none, created_at := 0 }
    (by decide) (by decide) (by decide)).2
  exact h.trans rfl

/-- C10: connection and section updates keep a stored field whenever the
supplied value is None, overwrite it when a value is supplied, leave every
field outside the update data untouched, and therefore can never reset the
one nullable updatable field (template_description) to null. -/
theorem update_keeps_unsupplied_fields (s : Section) (u : SectionUpdate)
    (c : Connection) (v : ConnectionUpdate) :
    ((repo_update_section s u).section_id = s.section_id) ∧
    ((repo_update_section s u).owner_user_id = s.owner_user_id) ∧
    ((repo_update_section s u).is_template = s.is_template) ∧
    ((repo_update_section s u).created_at = s.created_at) ∧
    (u.section_name = none →
      (repo_update_section s u).section_name = s.section_name) ∧
    (∀ x, u.section_name = some x → (repo_update_section s u).section_name = x) ∧
    (u.display_color = none →
      (repo_update_section s u).display_color = s.display_color) ∧
    (∀ x, u.display_color = some x → (repo_update_section s u).display_color = x) ∧
    (u.template_description = none →
      (repo_update_section s u).template_description = s.template_description) ∧
    (∀ x, u.template_description = some x →
      (repo_update_section s u).template_description = some x) ∧
    ((repo_update_section s u).template_description = none →
      s.template_description = none) ∧
    ((repo_update_connection c v).connection_id = c.connection_id) ∧
    ((repo_update_connection c v).user_a_id = c.user_a_id) ∧
    ((repo_update_connection c v).user_b_id = c.user_b_id) ∧
    ((repo_update_connection c v).created_at = c.created_at) ∧
    (v.connection_type = none →
      (repo_update_connection c v).connection_type = c.connection_type) ∧
    (∀ t, v.connection_type = some t →
      (repo_update_connection c v).connection_type = t) ∧
    (v.status = none → (repo_update_connection c v).status = c.status) ∧
    (∀ st, v.status = some st → (repo_update_connection c v).status = st) := by
  refine ⟨rfl, rfl, rfl, rfl, ?_, ?_, ?_, ?_, ?_, ?_, ?_, rfl, rfl, rfl, rfl,
    ?_, ?_, ?_, ?_⟩
  · intro h; simp [repo_update_section, h]
  · intro x h; simp [repo_update_section, h]
  · intro h; simp [repo_update_section, h]
  · intro x h; simp [repo_update_section, h]
  · intro h; simp [repo_update_section, h]
  · intro x h; simp [repo_update_section, h]
  · intro h
    cases htd : u.template_description with
    | none => simpa [repo_update_section, htd] using h
    | some v => simp [repo_update_section, htd] at h
  · intro h; simp [repo_update_connection, h]
  · intro t h; simp [repo_update_connection, h]
  · intro h; simp [repo_update_connection, h]
  · intro st h; simp [repo_update_connection, h]

/-- Closed instance of partial-update semantics: an all-None section update
leaves a non-null template_description in place. -/
theorem update_keeps_unsupplied_fields_witness :
    (repo_update_section
      { section_id := 10, owner_user_id := 1, section_name := "Groceries",
        display_color := "#808080", is_template := false,
        template_description := some "food", created_at := 0 }
      { section_name := none, display_color := none,
        template_description := none }).template_description
      = some "food" := by
  have h := (update_keeps_unsupplied_fields
    { section_id := 10, owner_user_id := 1, section_name := "Groceries",
      display_color := "#808080", is_template := false,
      template_description := some "food", created_at := 0 }
    { section_name := none, display_color := none, template_description := none }
    { connection_id := 1, user_a_id := 1, user_b_id := 2,
      connection_type := .friend, status := .pending, created_at := 0 }
    { connection_type := none, status := none }).2.2.2.2.2.2.2.2.1 (by decide)
  exact h

/-- C1 counterexample: the second vectorization of the identical text finds
the index already holding an entry whose original_hash_id is the content
hash, yet it still reports one freshly stored chunk — not the zero chunks
the idempotent-skip behaviour would report. -/
theorem vectorize_idempotence_cex :
    firstVectorize.1
      = .ok { chunks_count := 1, hash_id := "Buy milk", classification := none } ∧
    (firstVectorize.2.any fun e => e.original_hash_id == "Buy milk") = true ∧
    secondVectorize.1
      = .ok { chunks_count := 1, hash_id := "Buy milk", classification := none } ∧
    secondVectorize.1
      ≠ .ok { chunks_count := 0, hash_id := "Buy milk", classification := none } := by
  decide

/-- C1 amended: vectorize_and_store never consults the index for an existing
original_hash_id.  With no catalog supplied, every call — whatever the index
already holds — reports the full chunk count of the text with its hash, and
appends its chunks to the index again, so a repeated call reports N chunks,
not 0. -/
theorem vectorize_no_dedup {M : Type} (split : String → List String)
    (hashf : String → String)
    (classify : String → List SectionData → Except ApiError ClassificationResult)
    (text : String) (m : M) (store : List (VectorEntry M)) :
    (vectorize_and_store split hashf classify text m [] store
      = (.ok { chunks_count := (split text).length, hash_id := hashf text,
               classification := none },
         store ++ mk_chunk_docs split hashf text m)) ∧
    ((vectorize_and_store split hashf classify text m []
        (vectorize_and_store split hashf classify text m [] store).2).1
      = .ok { chunks_count := (split text).length, hash_id := hashf text,
              classification := none }) := by
  constructor
  · simp [vectorize_and_store, mk_chunk_docs]
  · simp [vectorize_and_store, mk_chunk_docs]

/-- C3 counterexample: with a catalog supplied and a classification call
that fails, vectorize_and_store does not succeed with a null classification
field — it propagates the failure, although the chunk was already stored. -/
theorem classification_error_not_caught_cex :
    vectorizeWithFailingClassify.1 = .error .internalError ∧
    vectorizeWithFailingClassify.1
      ≠ .ok { chunks_count := 1, hash_id := "Buy milk", classification := none } ∧
    vectorizeWithFailingClassify.2
      = [{ page_content := "Buy milk", metadata := 0, chunk_index := 0,
           original_hash_id := "Buy milk" }] := by
  decide

/-- C3 amended: when a sections catalog is supplied and classification
errors, vectorize_and_store fails with that very error instead of returning
its chunk count; the chunks were nonetheless already appended to the index
before the failure. -/
theorem classify_error_fails_vectorize {M : Type} (split : String → List String)
    (hashf : String → String)
    (classify : String → List SectionData → Except ApiError ClassificationResult)
    (text : String) (m : M) (sections_data : List SectionData)
    (store : List (VectorEntry M)) (e : ApiError)
    (hne : sections_data ≠ [])
    (hfail : classify text sections_data = .error e) :
    vectorize_and_store split hashf classify text m sections_data store
      = (.error e, store ++ mk_chunk_docs split hashf text m) := by
  cases sections_data with
  | nil => exact absurd rfl hne
  | cons a l => simp [vectorize_and_store, hfail]

/-- Closed instance of the amended C3 behaviour applied at concrete inputs. -/
theorem classify_error_fails_vectorize_witness :
    vectorize_and_store (M := Nat) oneChunkSplit identityHash failingClassify
        "Milk" 0 groceriesCatalog []
      = (.error .internalError,
         [] ++ mk_chunk_docs oneChunkSplit identityHash "Milk" 0) := by
  exact classify_error_fails_vectorize oneChunkSplit identityHash failingClassify
    "Milk" 0 groceriesCatalog [] .internalError (by decide) rfl

/-- C4 counterexample: with a similarity search that succeeds and a
summarization that fails, the text-query route returns the catch-all 500 —
not the retrieval results with a missing summary. -/
theorem summarize_error_not_caught_cex :
    query_text_route oneHitSearch failingSummarize "q" 3 = .error .internalError ∧
    query_text_route oneHitSearch failingSummarize "q" 3
      ≠ .ok { results := [{ text := "a", metadata := 0, score := 1 }],
              query := "q", summary := none } := by
  decide

/-- C4 amended: whenever the similarity search succeeds but summarization of
the retrieved texts errors, the whole text-query route fails with the 500
raised by its catch-all handler; the retrieval results are discarded rather
than returned without a summary. -/
theorem summarize_error_fails_query {M : Type}
    (similarity_query : String → Nat → Except ApiError (List (QueryResult M)))
    (summarize : List String → Except ApiError String)
    (q : String) (k : Nat) (results : List (QueryResult M)) (e : ApiError)
    (hq : similarity_query q k = .ok results)
    (hs : summarize (results.map fun r => r.text) = .error e) :
    query_text_route similarity_query summarize q k = .error .internalError := by
  simp [query_text_route, hq, hs]

/-- Closed instance of the amended C4 behaviour applied at concrete inputs. -/
theorem summarize_error_fails_query_witness :
    query_text_route oneHitSearch failingSummarize "milk" 1
      = .error .internalError := by
  exact summarize_error_fails_query oneHitSearch failingSummarize "milk" 1
    [{ text := "a", metadata := 0, score := 1 }] .internalError rfl rfl

/-- C7 counterexample: a well-formed response that names "None" yet carries
a non-null section_id is passed through — the returned section_id is 7, not
null, so the null-coupling clause of the claim fails on the code. -/
theorem classification_null_coupling_cex :
    classify_text_with_llm
        (some { predicted_section_name := some "None", section_id := some 7 })
      = .ok { predicted_section_name := some "None", confidence_score := 0,
              section_id := some 7 } ∧
    ({ predicted_section_name := some "None", confidence_score := 0,
       section_id := some 7 } : ClassificationResult).section_id ≠ none := by
  decide

/-- C7 amended: for every well-formed response the confidence is exactly 0
or 1 — 0 when the predicted name is "None", 1 otherwise — and the returned
section_id is the response's section_id unvalidated, so it is null on a
"None" prediction only when the response itself carried null. -/
theorem classification_confidence_binary (o : LLMOutput) (r : ClassificationResult)
    (h : classify_text_with_llm (some o) = .ok r) :
    (r.confidence_score = 0 ∨ r.confidence_score = 1) ∧
    (o.predicted_section_name = some "None" → r.confidence_score = 0) ∧
    (o.predicted_section_name ≠ some "None" → r.confidence_score = 1) ∧
    r.section_id = o.section_id ∧
    (o.section_id = none → r.section_id = none) := by
  simp only [classify_text_with_llm, Except.ok.injEq] at h
  subst h
  by_cases hn : o.predicted_section_name = some "None"
  · simp [hn]
  · simp [hn]

/-- Closed instance of the amended C7 behaviour: a matched section yields
confidence exactly 1. -/
theorem classification_confidence_binary_witness :
    ({ predicted_section_name := some "Groceries", confidence_score := 1,
       section_id := some 3 } : ClassificationResult).confidence_score = 1 := by
  exact (classification_confidence_binary
    { predicted_section_name := some "Groceries", section_id := some 3 }
    { predicted_section_name := some "Groceries", confidence_score := 1,
      section_id := some 3 }
    (by decide)).2.2.1 (by decide)

/-- C6: every item the scoped search returns lies in a section of the
actor's accessible set (owned plus can_view-granting, so never a section
the actor cannot view) and carries an embedding whose similarity strictly
exceeds the 0.5 threshold (hence nothing below the threshold survives); the
scored list is ordered by descending similarity, the returned page is its
10-element prefix with scores dropped, and at most 10 items come back. -/
theorem search_items_scoped (db : DB) (sim : Embedding → Embedding → ℚ)
    (user_id : Nat) (qe : Embedding) :
    similarityThreshold = 1/2 ∧
    (∀ it ∈ search_items db sim user_id qe,
      it.section_id ∈ all_accessible_section_ids db user_id ∧
      ∃ e, it.vector_embedding = some e ∧ similarityThreshold < sim qe e) ∧
    (scored_search_results db sim user_id qe).Sorted byScoreDesc ∧
    (search_items db sim user_id qe
      = ((scored_search_results db sim user_id qe).take 10).map fun p => p.1) ∧
    (search_items db sim user_id qe).length ≤ 10 := by
  refine ⟨by norm_num [similarityThreshold], ?_, ?_, rfl, ?_⟩
  · intro it hit
    obtain ⟨p, hp, hpe⟩ := List.mem_map.mp hit
    have hsorted : p ∈ (threshold_results db sim user_id qe).insertionSort byScoreDesc :=
      List.take_subset _ _ hp
    have hres : p ∈ threshold_results db sim user_id qe :=
      (List.perm_insertionSort byScoreDesc _).subset hsorted
    obtain ⟨it₀, hmem, hg⟩ := List.mem_filterMap.mp hres
    cases hemb : it₀.vector_embedding with
    | none => rw [hemb] at hg; simp at hg
    | some e =>
      rw [hemb] at hg
      simp only at hg
      split at hg
      · rename_i hlt
        obtain rfl := Option.some.inj hg
        simp only at hpe
        subst hpe
        have hpred := (List.mem_filter.mp hmem).2
        have hin : it₀.section_id ∈ all_accessible_section_ids db user_id := by
          have h1 := ((Bool.and_eq_true _ _).mp hpred).1
          simpa using h1
        exact ⟨hin, e, hemb, hlt⟩
      · simp at hg
  · exact List.sorted_insertionSort byScoreDesc _
  · simp only [search_items, List.length_map, List.length_take]
    omega

/-- Closed instance of the scoped search guarantees: in searchDB the item
of owned section 10 is returned and certified accessible with an
above-threshold similarity. -/
theorem search_items_scoped_witness :
    searchHit.section_id ∈ all_accessible_section_ids searchDB 1 ∧
    ∃ e, searchHit.vector_embedding = some e ∧
      similarityThreshold < exactMatchSim [1] e := by
  exact ((search_items_scoped searchDB exactMatchSim 1 [1]).2.1) searchHit (by decide)

end EchoList
